import Mathlib

/-!
Verification development for the cotton component template tag
(`django_cotton/templatetags/_component.py`).

The Python module is shallowly embedded below.  Python dictionaries with
string keys become association lists (`List (String × PyVal)`) with
Python's insertion semantics (`dictInsert` overwrites in place, otherwise
appends).  Python runtime values flowing through attributes become the
`PyVal` inductive.  Python exceptions become `Except PyExc`.  The host
framework's primitives (variable resolution, template rendering, literal
evaluation, the settings object) are external collaborators; they are
abstracted as an `Externals` record, and concrete executable models of
their documented behaviour are provided for evaluating the embedding on
concrete inputs.
-/

set_option autoImplicit false

/-- Model of a Python runtime value as it can appear in a component
attribute mapping or a render context: strings, integers, booleans,
`None`, lists, string-keyed dicts, and exception objects used as values
(`CottonIncompleteDynamicComponentException`). -/
inductive PyVal where
  | str (s : String)
  | int (n : Int)
  | bool (b : Bool)
  | none
  | list (xs : List PyVal)
  | dict (d : List (String × PyVal))
  | exc (msg : String)

/-- Model of the Python exception classes relevant to the embedded code:
`template.VariableDoesNotExist`, `ValueError`, `SyntaxError`, the
framework's `TemplateSyntaxError` (which is neither a `ValueError` nor a
`SyntaxError`), `KeyError`, `TypeError` and `AttributeError`. -/
inductive PyExc where
  | variableDoesNotExist
  | valueError
  | syntaxError
  | templateSyntaxError
  | keyError
  | typeError
  | attributeError
  deriving DecidableEq

mutual

/-- Model of Python `repr` restricted to the `PyVal` domain. -/
def pyRepr : PyVal → String
  | .str s => "'" ++ s ++ "'"
  | .int n => toString n
  | .bool b => if b then "True" else "False"
  | .none => "None"
  | .list xs => "[" ++ pyReprList xs ++ "]"
  | .dict d => "\x7b" ++ pyReprDict d ++ "\x7d"
  | .exc m => m

/-- Comma-separated `repr` of list elements. -/
def pyReprList : List PyVal → String
  | [] => ""
  | [x] => pyRepr x
  | x :: y :: xs => pyRepr x ++ ", " ++ pyReprList (y :: xs)

/-- Comma-separated `repr` of dict entries. -/
def pyReprDict : List (String × PyVal) → String
  | [] => ""
  | [(k, v)] => "'" ++ k ++ "': " ++ pyRepr v
  | (k, v) :: p :: ps => "'" ++ k ++ "': " ++ pyRepr v ++ ", " ++ pyReprDict (p :: ps)

end

/-- Model of Python `str` on the `PyVal` domain: strings are returned
as-is, container values use their `repr`, and `str` of an exception
object is its message. -/
def pyStr : PyVal → String
  | .str s => s
  | .exc m => m
  | v => pyRepr v

/-- Python dict lookup `d[k]`/`d.get(k)` on a string-keyed association
list. -/
def dictLookup {α : Type} : List (String × α) → String → Option α
  | [], _ => Option.none
  | p :: ps, k => if p.1 = k then some p.2 else dictLookup ps k

/-- Python dict assignment `d[k] = v`: replaces the value in place when
the key is present, otherwise appends the new entry at the end. -/
def dictInsert {α : Type} : List (String × α) → String → α → List (String × α)
  | [], k, v => [(k, v)]
  | p :: ps, k, v => if p.1 = k then (k, v) :: ps else p :: dictInsert ps k v

/-- Python `d.update(e)`: inserts every entry of `e` into `d` in order. -/
def dictUpdate {α : Type} (d e : List (String × α)) : List (String × α) :=
  e.foldl (fun acc p => dictInsert acc p.1 p.2) d

/-- Python `s.replace(a, b)` for single-character `a` and `b`. -/
def charReplace (a b : Char) (s : String) : String :=
  String.mk (s.data.map (fun c => if c = a then b else c))

/-- Python `s.lstrip(":")`: removes every leading colon. -/
def lstripColons (s : String) : String :=
  String.mk (s.data.dropWhile (fun c => c = ':'))

/-- Quote stripping from `_build_attrs`: the Python condition
`value and value[0] == value[-1] and value[0] in ('"', "'")` followed by
`value[1:-1]`.  On a one-character quote string the slice `[1:-1]` is
empty. -/
def stripQuotes (value : String) : String :=
  match value.data with
  | [] => value
  | c :: rest =>
    if (rest.getLast?.getD c) = c ∧ (c = '"' ∨ c = '\'') then String.mk rest.dropLast
    else value

/-- Test for the dynamic-attribute marker together with the stripped key:
models `key.startswith(":")` and the subsequent `key[1:]`. -/
def keySplit (k : String) : Option String :=
  if k.data.head? = some ':' then some (String.mk k.data.tail) else Option.none

/-- Model of Python `s.split(sep)` for a single-character separator:
splits at every occurrence of `sep`. -/
def pySplitChar (sep : Char) : List Char → List (List Char)
  | [] => [[]]
  | c :: rest =>
    if c = sep then [] :: pySplitChar sep rest
    else
      match pySplitChar sep rest with
      | [] => [[c]]
      | s :: ss => (c :: s) :: ss

/-- Model of Python `bit.split("=")` on the character list of the token. -/
def pySplitEq (cs : List Char) : List (List Char) :=
  pySplitChar '=' cs

/-- Kwarg-token handling from `cotton_component`: the tuple unpacking
`key, value = bit.split("=")` succeeds only when the split produces
exactly two parts; any other shape raises `ValueError`, which the code
catches by treating the whole token as a key with empty value. -/
def parseKwargToken (bit : String) : String × String :=
  match pySplitEq bit.data with
  | [k, v] => (String.mk k, String.mk v)
  | _ => (bit, "")

/-- Kwarg collection loop of `cotton_component` over the tokens after the
component path and key. -/
def cottonComponentKwargs (bits : List String) : List (String × String) :=
  bits.foldl (fun kw bit => let p := parseKwargToken bit; dictInsert kw p.1 p.2) []

/-- External collaborators of the embedded module: the host framework's
variable resolution (`template.Variable(value).resolve(context)`),
isolated template rendering (`Template(value).render(Context(context))`),
the standard library's `ast.literal_eval`, and the optional `COTTON_DIR`
setting.  Failure is surfaced as the raised exception class. -/
structure Externals where
  resolveVar : String → List (String × PyVal) → Except PyExc PyVal
  renderTemplate : String → List (String × PyVal) → Except PyExc String
  literalEval : String → Except PyExc PyVal
  cottonDir : Option String

/-- Embedding of `CottonComponentNode._parse_template_string`: renders
the value as an isolated template, catching exactly `ValueError` and
`SyntaxError` by returning the original string; any other exception
propagates. -/
def parseTemplateString (ext : Externals) (value : String)
    (ctx : List (String × PyVal)) : Except PyExc String :=
  match ext.renderTemplate value ctx with
  | .ok s => .ok s
  | .error PyExc.valueError => .ok value
  | .error PyExc.syntaxError => .ok value
  | .error e => .error e

/-- Embedding of `CottonComponentNode._process_dynamic_attribute`: try
variable resolution (catching exactly `VariableDoesNotExist`), then the
empty-string-to-`True` rule, then template interpolation, then
`ast.literal_eval` (catching exactly `ValueError` and `SyntaxError` by
returning the interpolated string). -/
def processDynamicAttribute (ext : Externals) (value : String)
    (ctx : List (String × PyVal)) : Except PyExc PyVal :=
  match ext.resolveVar value ctx with
  | .ok v => .ok v
  | .error PyExc.variableDoesNotExist =>
    if value = "" then .ok (.bool true)
    else
      match parseTemplateString ext value ctx with
      | .error e => .error e
      | .ok value2 =>
        match ext.literalEval value2 with
        | .ok v => .ok v
        | .error PyExc.valueError => .ok (.str value2)
        | .error PyExc.syntaxError => .ok (.str value2)
        | .error e => .error e
  | .error e => .error e

/-- Loop body sequence of `CottonComponentNode._build_attrs` over the
parsed kwargs: strip matching quotes, then dispatch on the `:` marker,
the empty value (boolean true), or a plain string value. -/
def buildAttrs (ext : Externals) : List (String × String) →
    List (String × PyVal) → List (String × PyVal) →
    Except PyExc (List (String × PyVal))
  | [], _, attrs => .ok attrs
  | (k, v) :: rest, ctxVars, attrs =>
    match keySplit k with
    | some kr =>
      match processDynamicAttribute ext (stripQuotes v) ctxVars with
      | .error e => .error e
      | .ok pv => buildAttrs ext rest ctxVars (dictInsert attrs kr pv)
    | Option.none =>
      if stripQuotes v = "" then
        buildAttrs ext rest ctxVars (dictInsert attrs k (.bool true))
      else buildAttrs ext rest ctxVars (dictInsert attrs k (.str (stripQuotes v)))

/-- Python iteration over the value stored under the expression-attrs
marker key: a list must contain strings (anything else fails as the
subsequent operations need `str`), and iterating a string yields its
characters. -/
def iterAsStrings : PyVal → Except PyExc (List String)
  | .str s => .ok (s.data.map (fun c => String.mk [c]))
  | .list l => l.mapM (fun v => match v with
      | .str s => Except.ok s
      | _ => Except.error PyExc.typeError)
  | _ => .error PyExc.typeError

/-- Loop of `CottonComponentNode.render` that evaluates each deferred
expression attribute against the local context and installs it into the
attribute mapping under its fully colon-stripped name. -/
def processExprAttrsGo (ext : Externals) (lns localCtx : List (String × PyVal)) :
    List String → List (String × PyVal) → Except PyExc (List (String × PyVal))
  | [], attrs => .ok attrs
  | name :: rest, attrs =>
    match dictLookup lns name with
    | Option.none => .error PyExc.keyError
    | some (.str raw) =>
      match processDynamicAttribute ext raw localCtx with
      | .error e => .error e
      | .ok ev => processExprAttrsGo ext lns localCtx rest (dictInsert attrs (lstripColons name) ev)
    | some _ => .error PyExc.typeError

/-- The `ctn_template_expression_attrs` block of `render`: when the
marker key is present in the component's named-slot data, every listed
attribute is evaluated and moved into the attribute mapping. -/
def processExprAttrs (ext : Externals) (lns localCtx attrs : List (String × PyVal)) :
    Except PyExc (List (String × PyVal)) :=
  match dictLookup lns "ctn_template_expression_attrs" with
  | Option.none => .ok attrs
  | some marker =>
    match iterAsStrings marker with
    | .error e => .error e
    | .ok names => processExprAttrsGo ext lns localCtx names attrs

/-- Modelled from the spec: `ensure_quoted` from `django_cotton.utils`
(the module is not part of the provided source).  Per the spec the attrs
string is built from "space-joined key=quoted-value pairs" and on
re-parsing "values may be re-quoted": the value's string form is wrapped
in double quotes unless it is already double-quoted on both ends. -/
def ensureQuoted (v : PyVal) : String :=
  if (pyStr v).data.head? = some '"' ∧ (pyStr v).data.getLast? = some '"' then pyStr v
  else "\"" ++ pyStr v ++ "\""

/-- Python `" ".join(parts)`. -/
def pyJoin (sep : String) : List String → String
  | [] => ""
  | [x] => x
  | x :: y :: xs => x ++ sep ++ pyJoin sep (y :: xs)

/-- The `attrs_string` built by `render`:
`" ".join(f"{key}={ensure_quoted(value)}" for key, value in attrs.items())`. -/
def attrsString (attrs : List (String × PyVal)) : String :=
  pyJoin " " (attrs.map (fun p => p.1 ++ "=" ++ ensureQuoted p.2))

/-- The dict comprehension of `render` exposing each attribute under a
template-addressable name: `{key.replace("-", "_"): value}`. -/
def normalizeAttrs (attrs : List (String × PyVal)) : List (String × PyVal) :=
  attrs.foldl (fun acc p => dictInsert acc (charReplace '-' '_' p.1) p.2) []

/-- Message of the `CottonIncompleteDynamicComponentException` constructed
by `_generate_component_template_path`. -/
def cottonIncompleteMsg : String :=
  "Cotton error: \"<c-component>\" should be accompanied by an \"is\" attribute."

/-- Embedding of `CottonComponentNode._generate_component_template_path`.
The sentinel path `"component"` resolves through the `is` attribute; when
`is` is absent the exception object is returned as a normal value.  A
non-string `is` value fails on `.replace` with `AttributeError`.  The
final path joins the configured (or default) base directory with the
dot/dash-normalized identifier and the `.html` extension. -/
def generateComponentTemplatePath (componentPath : String)
    (attrs : List (String × PyVal)) (setting : Option String) : Except PyExc PyVal :=
  let base := match setting with
    | some d => d
    | Option.none => "cotton"
  if componentPath = "component" then
    match dictLookup attrs "is" with
    | Option.none => .ok (.exc cottonIncompleteMsg)
    | some (.str s) =>
      .ok (.str (base ++ "/" ++ charReplace '-' '_' (charReplace '.' '/' s) ++ ".html"))
    | some _ => .error PyExc.attributeError
  else
    .ok (.str (base ++ "/" ++ charReplace '-' '_' (charReplace '.' '/' componentPath) ++ ".html"))

/-- The rendering context seen by a component node: the flattened
variable mapping together with the `cotton_named_slots` side-channel
store (per component key, the captured slot mapping). -/
structure Ctx where
  vars : List (String × PyVal)
  namedSlots : List (String × List (String × PyVal))

/-- A `CottonComponentNode`: the body renderer stands for
`self.nodelist.render`, the rest are the constructor arguments. -/
structure CottonComponentNode where
  bodyRender : Ctx → String
  component_path : String
  component_key : String
  kwargs : List (String × String)

/-- Everything `render` assembles before delegating to the host
framework's template loader: the resolved attribute mapping
(`attrs_dict`), the final local context, the value passed as the render
target, and the slot store after the reset. -/
structure RenderResult where
  attrsDict : List (String × PyVal)
  localCtx : List (String × PyVal)
  templatePath : PyVal
  namedSlots : List (String × List (String × PyVal))

/-- The named-slot data consumed by a node:
`context.get("cotton_named_slots", {}).get(self.component_key, {})`. -/
def localNamedSlots (node : CottonComponentNode) (ctx : Ctx) : List (String × PyVal) :=
  (dictLookup ctx.namedSlots node.component_key).getD []

/-- Embedding of `CottonComponentNode.render` up to the delegation to
`get_template(...).render(...)` (an external collaborator): build the
attributes, store the default slot, merge the named slots, evaluate
deferred expression attributes, expose the serialized and structured
attribute forms, reset the slot store for this key, and resolve the
template path. -/
def render (ext : Externals) (node : CottonComponentNode) (ctx : Ctx) :
    Except PyExc RenderResult :=
  match buildAttrs ext node.kwargs ctx.vars [] with
  | .error e => .error e
  | .ok attrs0 =>
    match processExprAttrs ext (localNamedSlots node ctx)
        (dictUpdate (dictInsert ctx.vars "slot" (.str (node.bodyRender ctx)))
          (localNamedSlots node ctx)) attrs0 with
    | .error e => .error e
    | .ok attrs1 =>
      match generateComponentTemplatePath node.component_path
          (normalizeAttrs attrs1) ext.cottonDir with
      | .error e => .error e
      | .ok tpath =>
        .ok { attrsDict := attrs1,
              localCtx := dictUpdate
                (dictInsert
                  (dictInsert
                    (dictUpdate (dictInsert ctx.vars "slot"
                      (.str (node.bodyRender ctx))) (localNamedSlots node ctx))
                    "attrs" (.str (attrsString attrs1)))
                  "attrs_dict" (.dict attrs1))
                (normalizeAttrs attrs1),
              templatePath := tpath,
              namedSlots := dictInsert ctx.namedSlots node.component_key [] }

/-- Model of the host framework's dotted variable lookup: each path
segment after the first descends into a dict value. -/
def modelLookupPath : List String → List (String × PyVal) → Option PyVal
  | [], _ => Option.none
  | [p], ctx => dictLookup ctx p
  | p :: ps, ctx =>
    match dictLookup ctx p with
    | some (.dict d) => modelLookupPath ps d
    | _ => Option.none

/-- Decimal value of an all-digit character list. -/
def digitsToNat (l : List Char) : Nat :=
  l.foldl (fun n c => n * 10 + (c.toNat - 48)) 0

/-- Test whether a character list is non-empty and all decimal digits. -/
def allDigits (l : List Char) : Bool :=
  l ≠ [] && l.all (fun c => '0' ≤ c ∧ c ≤ '9')

/-- Test whether a character list is a both-ends-quoted literal of
length at least two. -/
def isQuotedLiteral (l : List Char) : Bool :=
  2 ≤ l.length ∧ l.head? = l.getLast? ∧ (l.head? = some '"' ∨ l.head? = some '\'')

/-- Model of `template.Variable(value).resolve(context)`: an all-digit
string resolves as a number literal, a both-ends-quoted string as a
string literal, anything else as a dotted context lookup; a failed
lookup raises `VariableDoesNotExist`. -/
def modelResolveVar (value : String) (ctx : List (String × PyVal)) : Except PyExc PyVal :=
  if allDigits value.data then
    .ok (.int (digitsToNat value.data))
  else if isQuotedLiteral value.data then
    .ok (.str (String.mk value.data.dropLast.tail))
  else
    match modelLookupPath ((pySplitChar '.' value.data).map String.mk) ctx with
    | some v => .ok v
    | Option.none => .error PyExc.variableDoesNotExist

/-- Removal of leading and trailing spaces from a character list. -/
def trimSpaces (l : List Char) : List Char :=
  ((l.dropWhile (fun c => c = ' ')).reverse.dropWhile (fun c => c = ' ')).reverse

/-- Scanner state helper for the template-rendering model: collect the
characters of a variable expression up to the closing braces. -/
def spanToClose : List Char → Option (List Char × List Char)
  | [] => Option.none
  | '\x7d' :: '\x7d' :: rest => some ([], rest)
  | c :: rest =>
    match spanToClose rest with
    | some p => some (c :: p.1, p.2)
    | Option.none => Option.none

/-- Fuel-driven scanner for the template-rendering model: substitutes
each closed variable expression with the string form of its context
value (empty when unbound, as with the default `string_if_invalid`),
leaves an unclosed expression as literal text, and fails with the
framework's `TemplateSyntaxError` on a block tag (unsupported in the
model). -/
def modelRenderGo : Nat → List Char → List (String × PyVal) → Except PyExc (List Char)
  | _, [], _ => .ok []
  | 0, cs, _ => .ok cs
  | fuel + 1, '\x7b' :: '\x7b' :: rest, ctx =>
    match spanToClose rest with
    | some p =>
      (match modelRenderGo fuel p.2 ctx with
       | .error e => .error e
       | .ok tail =>
         .ok ((match dictLookup ctx (String.mk (trimSpaces p.1)) with
               | some v => (pyStr v).data
               | Option.none => []) ++ tail))
    | Option.none => .ok ('\x7b' :: '\x7b' :: rest)
  | _ + 1, '\x7b' :: '%' :: _, _ => .error PyExc.templateSyntaxError
  | fuel + 1, c :: rest, ctx =>
    match modelRenderGo fuel rest ctx with
    | .error e => .error e
    | .ok tail => .ok (c :: tail)

/-- Model of `Template(value).render(Context(context))` restricted to
plain variable substitution. -/
def modelRenderTemplate (value : String) (ctx : List (String × PyVal)) :
    Except PyExc String :=
  match modelRenderGo (value.data.length + 1) value.data ctx with
  | .ok l => .ok (String.mk l)
  | .error e => .error e

/-- Model of `ast.literal_eval` restricted to the scalar literals the
embedded code can meet: booleans, `None`, integers and quoted strings;
everything else raises `ValueError`. -/
def modelLiteralEval (value : String) : Except PyExc PyVal :=
  if value = "True" then .ok (.bool true)
  else if value = "False" then .ok (.bool false)
  else if value = "None" then .ok PyVal.none
  else if allDigits value.data then .ok (.int (digitsToNat value.data))
  else if isQuotedLiteral value.data then
    .ok (.str (String.mk value.data.dropLast.tail))
  else
    match value.data with
    | '-' :: rest =>
      if allDigits rest then .ok (.int (-(digitsToNat rest : Int)))
      else .error PyExc.valueError
    | _ => .error PyExc.valueError

/-- Concrete instantiation of the external collaborators by the models
above, with no `COTTON_DIR` setting. -/
def modelExt : Externals :=
  { resolveVar := modelResolveVar
    renderTemplate := modelRenderTemplate
    literalEval := modelLiteralEval
    cottonDir := Option.none }

/-- Minimal external collaborators whose failures all lie inside the
exception classes the embedded code catches: no variable ever resolves,
and both template rendering and literal evaluation always fail with
`ValueError`, exercising the locally caught parse-failure paths. -/
def failingExt : Externals :=
  { resolveVar := fun _ _ => .error PyExc.variableDoesNotExist
    renderTemplate := fun _ _ => .error PyExc.valueError
    literalEval := fun _ => .error PyExc.valueError
    cottonDir := Option.none }

/-- Tokenizer for the round-trip re-parse: whitespace splitting that
keeps double-quoted sections intact, as the host framework's tag
tokenizer (`token.split_contents`) does. -/
def smartSplitGo : List Char → Bool → List Char → List String
  | [], _, cur => if cur = [] then [] else [String.mk cur.reverse]
  | c :: cs, inQ, cur =>
    if c = '"' then smartSplitGo cs (!inQ) (c :: cur)
    else if c = ' ' ∧ inQ = false then
      (if cur = [] then smartSplitGo cs false []
       else String.mk cur.reverse :: smartSplitGo cs false [])
    else smartSplitGo cs inQ (c :: cur)

/-- Quote-aware token split of a serialized attrs string. -/
def smartSplit (s : String) : List String :=
  smartSplitGo s.data false []

/-- Re-parse of a serialized attrs string into attribute keys: tokenize,
then split each token on `=` the way `cotton_component` does. -/
def reparseKeys (s : String) : List String :=
  (smartSplit s).map (fun bit => (parseKwargToken bit).1)

/-- Boolean success test for an `Except` computation. -/
def exceptIsOk {ε α : Type} : Except ε α → Bool
  | .ok _ => true
  | .error _ => false

/-- Marker test used in the attribute-key invariant: does the key still
begin with the `:` dynamic marker. -/
def startsWithColon (s : String) : Bool :=
  s.data.head? = some ':'

/-- Concrete dynamic-sentinel node for the C5 witness. -/
def c5Node : CottonComponentNode :=
  { bodyRender := fun _ => "", component_path := "component",
    component_key := "key", kwargs := [] }

/-- Concrete render result of the C5 witness node. -/
def c5Res : RenderResult :=
  (render modelExt c5Node ⟨[], []⟩).toOption.getD ⟨[], [], PyVal.none, []⟩

/-- Concrete node for the C3 witness. -/
def c3Node : CottonComponentNode :=
  { bodyRender := fun _ => "BODY", component_path := "p",
    component_key := "k", kwargs := [] }

/-- Concrete context for the C3 witness, with captured slot content for
key `"k"`. -/
def c3Ctx : Ctx := ⟨[], [("k", [("header", PyVal.str "H")])]⟩

/-- Concrete render result of the C3 witness node. -/
def c3Res : RenderResult :=
  (render modelExt c3Node c3Ctx).toOption.getD ⟨[], [], PyVal.none, []⟩

/-- Concrete node for the C8 witness, with a dynamic dashed key, a
static dashed key, and a static key containing an interior colon. -/
def c8Node : CottonComponentNode :=
  { bodyRender := fun _ => "", component_path := "p", component_key := "k",
    kwargs := [(":a-b", "1"), ("c-d", "2"), ("a:b", "v")] }

/-- Concrete render result of the C8 witness node. -/
def c8Res : RenderResult :=
  (render modelExt c8Node ⟨[], []⟩).toOption.getD ⟨[], [], PyVal.none, []⟩

/-! Helper lemmas about the dictionary model and the render pipeline. -/

theorem dictLookup_insert_self {α : Type} (d : List (String × α)) (k : String) (v : α) :
    dictLookup (dictInsert d k v) k = some v := by
  induction d with
  | nil => simp [dictInsert, dictLookup]
  | cons p ps ih =>
    by_cases h : p.1 = k
    · simp [dictInsert, h, dictLookup]
    · simp [dictInsert, h, dictLookup, ih]

theorem dictInsert_forall {α : Type} (P : String → Prop) (d : List (String × α))
    (k : String) (v : α) (hd : ∀ p ∈ d, P p.1) (hk : P k) :
    ∀ p ∈ dictInsert d k v, P p.1 := by
  induction d with
  | nil => simpa [dictInsert]
  | cons q qs ih =>
    by_cases h : q.1 = k
    · simp only [dictInsert, if_pos h]
      intro p hp
      rcases List.mem_cons.mp hp with h' | h'
      · simp [h']; exact hk
      · exact hd p (List.mem_cons_of_mem _ h')
    · simp only [dictInsert, if_neg h]
      intro p hp
      rcases List.mem_cons.mp hp with h' | h'
      · subst h'; exact hd p (List.mem_cons_self _ _)
      · exact ih (fun q hq => hd q (List.mem_cons_of_mem _ hq)) p h'

theorem render_ok_elim {ext : Externals} {node : CottonComponentNode} {ctx : Ctx}
    {res : RenderResult} (h : render ext node ctx = .ok res) :
    ∃ attrs0 attrs1 tpath,
      buildAttrs ext node.kwargs ctx.vars [] = .ok attrs0 ∧
      processExprAttrs ext (localNamedSlots node ctx)
        (dictUpdate (dictInsert ctx.vars "slot" (.str (node.bodyRender ctx)))
          (localNamedSlots node ctx)) attrs0 = .ok attrs1 ∧
      generateComponentTemplatePath node.component_path (normalizeAttrs attrs1)
        ext.cottonDir = .ok tpath ∧
      res = { attrsDict := attrs1,
              localCtx := dictUpdate
                (dictInsert
                  (dictInsert (dictUpdate (dictInsert ctx.vars "slot"
                    (.str (node.bodyRender ctx))) (localNamedSlots node ctx))
                    "attrs" (.str (attrsString attrs1)))
                  "attrs_dict" (.dict attrs1))
                (normalizeAttrs attrs1),
              templatePath := tpath,
              namedSlots := dictInsert ctx.namedSlots node.component_key [] } := by
  unfold render at h
  split at h
  · exact absurd h (by simp)
  next attrs0 hb =>
    split at h
    · exact absurd h (by simp)
    next attrs1 hp =>
      split at h
      · exact absurd h (by simp)
      next tpath hg =>
        exact ⟨attrs0, attrs1, tpath, hb, hp, hg, (Except.ok.injEq _ _ ▸ h).symm⟩

/-- C1: a dynamic attribute whose raw string resolves as a
variable/path reference into the render context evaluates to exactly the
context's value, whatever its type, regardless of how template
interpolation or literal parsing would behave on the same string. -/
theorem c1_dynamic_variable_precedence (ext : Externals) (value : String)
    (ctx : List (String × PyVal)) (v : PyVal)
    (h : ext.resolveVar value ctx = .ok v) :
    processDynamicAttribute ext value ctx = .ok v := by
  unfold processDynamicAttribute
  rw [h]

/-- Witness for C1 at a concrete non-string context value. -/
theorem c1_witness :
    modelExt.resolveVar "name" [("name", PyVal.int 7)] = .ok (PyVal.int 7) ∧
    processDynamicAttribute modelExt "name" [("name", PyVal.int 7)] = .ok (PyVal.int 7) :=
  ⟨rfl, c1_dynamic_variable_precedence modelExt "name" [("name", PyVal.int 7)]
    (PyVal.int 7) rfl⟩

/-- C2: when a dynamic attribute's raw string does not resolve as a
context variable and is non-empty, it is rendered as a template fragment
first and only the interpolated result is offered to the literal parser;
concretely, the interpolation example resolves to the string
`"prefix-val"` and the numeric example resolves to the integer `42`. -/
theorem c2_interpolate_then_literal (ext : Externals) (value s : String)
    (ctx : List (String × PyVal))
    (h1 : ext.resolveVar value ctx = .error PyExc.variableDoesNotExist)
    (h2 : value ≠ "")
    (h3 : ext.renderTemplate value ctx = .ok s) :
    (∀ v : PyVal, ext.literalEval s = .ok v →
      processDynamicAttribute ext value ctx = .ok v) ∧
    (ext.literalEval s = .error PyExc.valueError →
      processDynamicAttribute ext value ctx = .ok (.str s)) ∧
    processDynamicAttribute modelExt "prefix-\x7b\x7b y \x7d\x7d"
      [("y", PyVal.str "val")] = .ok (.str "prefix-val") ∧
    processDynamicAttribute modelExt "42" [("y", PyVal.str "val")] = .ok (.int 42) := by
  have hp : parseTemplateString ext value ctx = .ok s := by
    unfold parseTemplateString
    rw [h3]
  refine ⟨?_, ?_, rfl, rfl⟩
  · intro v hv
    simp only [processDynamicAttribute, h1, hp, hv, if_neg h2]
  · intro hv
    simp only [processDynamicAttribute, h1, hp, hv, if_neg h2]

/-- Witness for C2 at the spec's interpolation example against the
concrete framework models. -/
theorem c2_witness :
    modelExt.resolveVar "prefix-\x7b\x7b y \x7d\x7d" [("y", PyVal.str "val")] =
      .error PyExc.variableDoesNotExist ∧
    modelExt.renderTemplate "prefix-\x7b\x7b y \x7d\x7d" [("y", PyVal.str "val")] =
      .ok "prefix-val" ∧
    processDynamicAttribute modelExt "prefix-\x7b\x7b y \x7d\x7d"
      [("y", PyVal.str "val")] = .ok (.str "prefix-val") := by
  have h := c2_interpolate_then_literal modelExt "prefix-\x7b\x7b y \x7d\x7d"
    "prefix-val" [("y", PyVal.str "val")] rfl (by decide) rfl
  exact ⟨rfl, rfl, h.2.1 rfl⟩

/-- C6 (amended): provided the external collaborators fail only with
the exception classes the embedded code catches (`VariableDoesNotExist`
from variable resolution, `ValueError`/`SyntaxError` from template
rendering and literal evaluation), dynamic-attribute resolution never
raises, and a template-parse failure is caught locally with the prior
string returned unmodified.  The unconditional claim is refuted by
`c6_counterexample`: a failure outside those classes propagates. -/
theorem c6_never_raises (ext : Externals)
    (hr : ∀ v c e, ext.resolveVar v c = .error e → e = PyExc.variableDoesNotExist)
    (ht : ∀ v c e, ext.renderTemplate v c = .error e →
      e = PyExc.valueError ∨ e = PyExc.syntaxError)
    (hl : ∀ v e, ext.literalEval v = .error e →
      e = PyExc.valueError ∨ e = PyExc.syntaxError)
    (value : String) (ctx : List (String × PyVal)) :
    exceptIsOk (processDynamicAttribute ext value ctx) = true ∧
    (∀ e, ext.renderTemplate value ctx = .error e →
      parseTemplateString ext value ctx = .ok value) := by
  constructor
  · unfold processDynamicAttribute
    cases hres : ext.resolveVar value ctx with
    | ok v => simp [exceptIsOk]
    | error e =>
      have he := hr _ _ _ hres
      subst he
      by_cases hv : value = ""
      · simp [hv, exceptIsOk]
      · rw [if_neg hv]
        cases hpt : parseTemplateString ext value ctx with
        | error e' =>
          exfalso
          unfold parseTemplateString at hpt
          cases hrt : ext.renderTemplate value ctx with
          | ok s => rw [hrt] at hpt; simp at hpt
          | error e'' =>
            rcases ht _ _ _ hrt with h | h <;> subst h <;> rw [hrt] at hpt <;>
              simp at hpt
        | ok s =>
          cases hle : ext.literalEval s with
          | ok v => simp [hle, exceptIsOk]
          | error e'' =>
            rcases hl _ _ hle with h | h <;> subst h <;> simp [hle, exceptIsOk]
  · intro e he
    have h := ht _ _ _ he
    unfold parseTemplateString
    rcases h with h | h <;> subst h <;> rw [he]

/-- C6 counterexample: under the faithful framework model a malformed
block tag raises the framework's `TemplateSyntaxError`, which is neither
a `ValueError` nor a `SyntaxError`, so `_process_dynamic_attribute`
propagates it instead of producing a value. -/
theorem c6_counterexample :
    processDynamicAttribute modelExt "\x7b% x %\x7d" [] =
      .error PyExc.templateSyntaxError ∧
    exceptIsOk (processDynamicAttribute modelExt "\x7b% x %\x7d" []) = false :=
  ⟨rfl, rfl⟩

/-- Witness for C6 (amended) with external collaborators confined to
the caught exception classes, exercising both locally caught parse
failures. -/
theorem c6_witness :
    exceptIsOk (processDynamicAttribute failingExt "not-a-var" []) = true ∧
    parseTemplateString failingExt "not-a-var" [] = .ok "not-a-var" := by
  have h := c6_never_raises failingExt
    (fun _ _ _ he => (Except.error.inj he).symm)
    (fun _ _ _ he => Or.inl (Except.error.inj he).symm)
    (fun _ _ he => Or.inl (Except.error.inj he).symm)
    "not-a-var" []
  exact ⟨h.1, h.2 PyExc.valueError rfl⟩

/-- C10: a raw attribute value consisting of exactly one quote character
is reduced to the empty string by the quote-stripping step, so both a
static and a dynamic attribute carrying it resolve to boolean true. -/
theorem c10_lone_quote_boolean (ext : Externals) (ctx : List (String × PyVal))
    (k k2 : String) (hk : keySplit k = Option.none)
    (h0 : ext.resolveVar "" ctx = .error PyExc.variableDoesNotExist) :
    stripQuotes "\"" = "" ∧ stripQuotes "'" = "" ∧
    buildAttrs ext [(k, "\"")] ctx [] = .ok [(k, .bool true)] ∧
    buildAttrs ext [(":" ++ k2, "'")] ctx [] = .ok [(k2, .bool true)] := by
  have hpd : processDynamicAttribute ext "" ctx = .ok (.bool true) := by
    simp [processDynamicAttribute, h0]
  have hks : keySplit (":" ++ k2) = some k2 := by
    show keySplit (String.mk (':' :: k2.data)) = some k2
    simp [keySplit]
  refine ⟨rfl, rfl, ?_, ?_⟩
  · unfold buildAttrs
    rw [hk]
    rfl
  · unfold buildAttrs
    rw [hks]
    have hsq : stripQuotes "'" = "" := rfl
    rw [hsq, hpd]
    rfl

/-- Witness for C10 at concrete keys. -/
theorem c10_witness :
    keySplit "flag" = Option.none ∧
    modelExt.resolveVar "" [] = .error PyExc.variableDoesNotExist ∧
    buildAttrs modelExt [("flag", "\"")] [] [] = .ok [("flag", .bool true)] ∧
    buildAttrs modelExt [(":on", "'")] [] [] = .ok [("on", .bool true)] := by
  have h := c10_lone_quote_boolean modelExt [] "flag" "on" rfl rfl
  exact ⟨rfl, rfl, h.2.2.1, h.2.2.2⟩

/-- C4: the resolved template-lookup path is always the base directory
(the configured setting when present, else the default `"cotton"`), a
path separator, the component identifier with every `.` replaced by `/`
and every `-` replaced by `_`, and the `.html` extension; in particular
the dynamic `is="widgets.button"` example and the static `"my-thing"`
example resolve as the spec states. -/
theorem c4_template_path (setting : Option String) (path : String)
    (attrs : List (String × PyVal)) (s : String) :
    (path ≠ "component" → generateComponentTemplatePath path attrs setting =
      .ok (.str ((setting.getD "cotton") ++ "/" ++
        charReplace '-' '_' (charReplace '.' '/' path) ++ ".html"))) ∧
    (dictLookup attrs "is" = some (.str s) →
      generateComponentTemplatePath "component" attrs setting =
      .ok (.str ((setting.getD "cotton") ++ "/" ++
        charReplace '-' '_' (charReplace '.' '/' s) ++ ".html"))) ∧
    generateComponentTemplatePath "component" [("is", PyVal.str "widgets.button")]
      Option.none = .ok (.str "cotton/widgets/button.html") ∧
    generateComponentTemplatePath "my-thing" [] Option.none =
      .ok (.str "cotton/my_thing.html") := by
  refine ⟨?_, ?_, rfl, rfl⟩
  · intro h
    unfold generateComponentTemplatePath
    rw [if_neg h]
    cases setting <;> rfl
  · intro h
    unfold generateComponentTemplatePath
    rw [if_pos rfl, h]
    cases setting <;> rfl

/-- Witness for C4 with an explicit base-directory setting. -/
theorem c4_witness :
    ("my-thing" ≠ "component") ∧
    generateComponentTemplatePath "my-thing" [] (some "base") =
      .ok (.str "base/my_thing.html") ∧
    dictLookup [("is", PyVal.str "widgets.button")] "is" =
      some (.str "widgets.button") ∧
    generateComponentTemplatePath "component" [("is", PyVal.str "widgets.button")]
      (some "base") = .ok (.str "base/widgets/button.html") := by
  have h := c4_template_path (some "base") "my-thing"
    [("is", PyVal.str "widgets.button")] "widgets.button"
  exact ⟨by decide, h.1 (by decide), rfl, h.2.1 rfl⟩

/-- C5: with the sentinel path `"component"` and no `is` attribute, the
path resolver completes without raising and returns the constructed
exception object as a normal value, which `render` then passes on as the
render target. -/
theorem c5_missing_is_returns_exception_value (setting : Option String)
    (attrs : List (String × PyVal)) (ext : Externals) (node : CottonComponentNode)
    (ctx : Ctx) (res : RenderResult)
    (hi : dictLookup attrs "is" = Option.none)
    (hp : node.component_path = "component")
    (hr : render ext node ctx = .ok res)
    (hres : dictLookup (normalizeAttrs res.attrsDict) "is" = Option.none) :
    generateComponentTemplatePath "component" attrs setting =
      .ok (.exc cottonIncompleteMsg) ∧
    res.templatePath = .exc cottonIncompleteMsg := by
  have gen_exc : ∀ (a : List (String × PyVal)) (st : Option String),
      dictLookup a "is" = Option.none →
      generateComponentTemplatePath "component" a st = .ok (.exc cottonIncompleteMsg) := by
    intro a st ha
    unfold generateComponentTemplatePath
    rw [if_pos rfl, ha]
  refine ⟨gen_exc attrs setting hi, ?_⟩
  obtain ⟨a0, a1, tpath, hb, hpr, hg, hres'⟩ := render_ok_elim hr
  have ha1 : res.attrsDict = a1 := by rw [hres']
  rw [ha1] at hres
  rw [hp] at hg
  rw [gen_exc (normalizeAttrs a1) ext.cottonDir hres] at hg
  have : tpath = .exc cottonIncompleteMsg := (Except.ok.inj hg).symm
  rw [hres', this]

/-- Witness for C5: the sentinel node without `is` renders with the
exception value as its template target. -/
theorem c5_witness :
    render modelExt c5Node ⟨[], []⟩ = .ok c5Res ∧
    generateComponentTemplatePath "component" [] Option.none =
      .ok (.exc cottonIncompleteMsg) ∧
    c5Res.templatePath = .exc cottonIncompleteMsg := by
  have h := c5_missing_is_returns_exception_value Option.none [] modelExt c5Node
    ⟨[], []⟩ c5Res rfl rfl rfl rfl
  exact ⟨rfl, h.1, h.2⟩

/-- C3: a successful render resets the side-channel slot store entry for
the node's component key to the empty mapping, so a subsequent
invocation of the same component key consumes no slot data from the
first. -/
theorem c3_slot_reset (ext : Externals) (node : CottonComponentNode) (ctx : Ctx)
    (res : RenderResult) (h : render ext node ctx = .ok res) :
    dictLookup res.namedSlots node.component_key = some [] ∧
    ∀ vars2 : List (String × PyVal),
      localNamedSlots node ⟨vars2, res.namedSlots⟩ = [] := by
  obtain ⟨a0, a1, tpath, _, _, _, hres⟩ := render_ok_elim h
  have hns : res.namedSlots = dictInsert ctx.namedSlots node.component_key [] := by
    rw [hres]
  constructor
  · rw [hns]
    exact dictLookup_insert_self _ _ _
  · intro vars2
    unfold localNamedSlots
    simp [hns, dictLookup_insert_self]

/-- Witness for C3: after a concrete render the slot entry for `"k"` is
empty and a second invocation consumes no named slots. -/
theorem c3_witness :
    render modelExt c3Node c3Ctx = .ok c3Res ∧
    dictLookup c3Res.namedSlots "k" = some [] ∧
    localNamedSlots c3Node ⟨[], c3Res.namedSlots⟩ = [] := by
  have h := c3_slot_reset modelExt c3Node c3Ctx c3Res rfl
  exact ⟨rfl, h.1, h.2 []⟩

/-! Lemmas about the split model used by the kwarg parser. -/

theorem pySplitChar_ne_nil (sep : Char) (cs : List Char) : pySplitChar sep cs ≠ [] := by
  induction cs with
  | nil => simp [pySplitChar]
  | cons c rest ih =>
    by_cases h : c = sep
    · simp [pySplitChar, h]
    · simp only [pySplitChar, if_neg h]
      cases hr : pySplitChar sep rest with
      | nil => simp
      | cons s ss => simp

theorem pySplitChar_no_sep (sep : Char) (cs : List Char) (h : sep ∉ cs) :
    pySplitChar sep cs = [cs] := by
  induction cs with
  | nil => rfl
  | cons c rest ih =>
    have hc : c ≠ sep := fun hcc => h (hcc ▸ List.mem_cons_self _ _)
    have hrest : sep ∉ rest := fun hm => h (List.mem_cons_of_mem _ hm)
    simp only [pySplitChar, if_neg hc, ih hrest]

theorem pySplitChar_append (sep : Char) (xs ys : List Char) (h : sep ∉ xs) :
    pySplitChar sep (xs ++ sep :: ys) = xs :: pySplitChar sep ys := by
  induction xs with
  | nil => simp [pySplitChar]
  | cons x xs ih =>
    have hx : x ≠ sep := fun hxx => h (hxx ▸ List.mem_cons_self _ _)
    have hxs : sep ∉ xs := fun hm => h (List.mem_cons_of_mem _ hm)
    simp only [List.cons_append, pySplitChar, if_neg hx, List.append_eq, ih hxs]

theorem pySplitChar_length (sep : Char) (cs : List Char) :
    (pySplitChar sep cs).length = cs.count sep + 1 := by
  induction cs with
  | nil => simp [pySplitChar]
  | cons c rest ih =>
    by_cases h : c = sep
    · subst h
      simp [pySplitChar, List.count_cons, ih]
    · simp only [pySplitChar, if_neg h]
      cases hr : pySplitChar sep rest with
      | nil => exact absurd hr (pySplitChar_ne_nil sep rest)
      | cons s ss =>
        rw [hr] at ih
        simp only [List.length_cons] at ih ⊢
        simp [List.count_cons, h, Ne.symm h]
        omega

theorem parseKwargToken_split (k v : String) (hk : '=' ∉ k.data) (hv : '=' ∉ v.data) :
    parseKwargToken (k ++ "=" ++ v) = (k, v) := by
  have hdata : (k ++ "=" ++ v).data = k.data ++ '=' :: v.data := by
    rw [String.data_append, String.data_append, List.append_assoc]
    rfl
  unfold parseKwargToken pySplitEq
  rw [hdata, pySplitChar_append _ _ _ hk, pySplitChar_no_sep _ _ hv]

/-- C7 counterexample: the parser does not split a token exactly once on
the equals sign; a token with two equals signs falls into the
boolean-attribute path instead of splitting at the first occurrence. -/
theorem c7_counterexample :
    parseKwargToken "a=b=c" = ("a=b=c", "") ∧ parseKwargToken "a=b=c" ≠ ("a", "b=c") :=
  ⟨rfl, by decide⟩

/-- C7 (amended): the parser splits each token on every `=` and keeps the
pair only when that yields exactly two parts; tokens with no `=` — and
likewise tokens with two or more `=` — become attribute keys with empty
value, and a static key with empty value is coerced to boolean true. -/
theorem c7_amended (bit k v flagKey : String) (ext : Externals)
    (ctx : List (String × PyVal)) (hflag : keySplit flagKey = Option.none) :
    ('=' ∉ bit.data → parseKwargToken bit = (bit, "")) ∧
    ('=' ∉ k.data → '=' ∉ v.data → parseKwargToken (k ++ "=" ++ v) = (k, v)) ∧
    (2 ≤ bit.data.count '=' → parseKwargToken bit = (bit, "")) ∧
    buildAttrs ext [(flagKey, "")] ctx [] = .ok [(flagKey, .bool true)] := by
  refine ⟨?_, fun hk hv => parseKwargToken_split k v hk hv, ?_, ?_⟩
  · intro h
    unfold parseKwargToken pySplitEq
    rw [pySplitChar_no_sep _ _ h]
  · intro h
    have hlen := pySplitChar_length '=' bit.data
    unfold parseKwargToken pySplitEq
    rcases hsp : pySplitChar '=' bit.data with _ | ⟨a, _ | ⟨b, _ | ⟨c, l⟩⟩⟩
    · rfl
    · rfl
    · rw [hsp] at hlen
      simp at hlen
      omega
    · rfl
  · unfold buildAttrs
    rw [hflag]
    rfl

/-- Witness for C7 (amended) at concrete tokens. -/
theorem c7_witness :
    ('=' ∉ ("flag" : String).data) ∧ parseKwargToken "flag" = ("flag", "") ∧
    parseKwargToken "x=1" = ("x", "1") ∧
    keySplit "flag" = Option.none ∧
    buildAttrs modelExt [("flag", "")] [] [] = .ok [("flag", .bool true)] := by
  have h := c7_amended "flag" "x" "1" "flag" modelExt [] rfl
  exact ⟨by decide, h.1 (by decide), h.2.1 (by decide) (by decide), rfl, h.2.2.2⟩

/-! Lemmas about attribute-key shapes for the dynamic-marker invariant. -/

theorem keySplit_some_data {k kr : String} (h : keySplit k = some kr) :
    kr.data = k.data.tail := by
  unfold keySplit at h
  by_cases hc : k.data.head? = some ':'
  · rw [if_pos hc] at h
    have : String.mk k.data.tail = kr := Option.some.inj h
    rw [← this]
  · rw [if_neg hc] at h
    exact absurd h (by simp)

theorem keySplit_some_head {k kr : String} (h : keySplit k = some kr) :
    k.data.head? = some ':' := by
  unfold keySplit at h
  by_cases hc : k.data.head? = some ':'
  · exact hc
  · rw [if_neg hc] at h
    exact absurd h (by simp)

theorem startsWithColon_of_keySplit_none (k : String) (h : keySplit k = Option.none) :
    startsWithColon k = false := by
  unfold keySplit at h
  unfold startsWithColon
  by_cases hc : k.data.head? = some ':'
  · rw [if_pos hc] at h
    exact absurd h (by simp)
  · exact decide_eq_false hc

theorem head_dropWhile_colon (l : List Char) :
    (l.dropWhile (fun c => c = ':')).head? ≠ some ':' := by
  induction l with
  | nil => simp [List.dropWhile]
  | cons c rest ih =>
    by_cases hc : c = ':'
    · simpa [List.dropWhile_cons, hc] using ih
    · simp [List.dropWhile_cons, hc]

theorem startsWithColon_lstrip (s : String) : startsWithColon (lstripColons s) = false := by
  unfold startsWithColon lstripColons
  exact decide_eq_false (head_dropWhile_colon s.data)

theorem charReplace_no_dash (s : String) : '-' ∉ (charReplace '-' '_' s).data := by
  unfold charReplace
  intro h
  rcases List.mem_map.mp h with ⟨a, _, ha⟩
  by_cases hd : a = '-'
  · rw [if_pos hd] at ha
    exact absurd ha (by decide)
  · rw [if_neg hd] at ha
    exact hd ha

theorem buildAttrs_keys (ext : Externals) (P : String → Prop)
    (kwargs : List (String × String)) (ctxVars : List (String × PyVal)) :
    ∀ (attrs out : List (String × PyVal)),
    (∀ p ∈ kwargs, ∀ kr, keySplit p.1 = some kr → P kr) →
    (∀ p ∈ kwargs, keySplit p.1 = Option.none → P p.1) →
    (∀ p ∈ attrs, P p.1) →
    buildAttrs ext kwargs ctxVars attrs = .ok out →
    ∀ p ∈ out, P p.1 := by
  induction kwargs with
  | nil =>
    intro attrs out _ _ hattrs h
    unfold buildAttrs at h
    obtain rfl := Except.ok.inj h
    exact hattrs
  | cons q rest ih =>
    intro attrs out hkw hkw2 hattrs h
    obtain ⟨k, v⟩ := q
    unfold buildAttrs at h
    cases hks : keySplit k with
    | some kr =>
      simp only [hks] at h
      cases hpd : processDynamicAttribute ext (stripQuotes v) ctxVars with
      | error e => simp [hpd] at h
      | ok pv =>
        simp only [hpd] at h
        exact ih _ _ (fun p hp kr' h' => hkw p (List.mem_cons_of_mem _ hp) kr' h')
          (fun p hp h' => hkw2 p (List.mem_cons_of_mem _ hp) h')
          (dictInsert_forall P attrs kr pv hattrs
            (hkw (k, v) (List.mem_cons_self _ _) kr hks)) h
    | none =>
      simp only [hks] at h
      by_cases hv : stripQuotes v = ""
      · rw [if_pos hv] at h
        exact ih _ _ (fun p hp kr' h' => hkw p (List.mem_cons_of_mem _ hp) kr' h')
          (fun p hp h' => hkw2 p (List.mem_cons_of_mem _ hp) h')
          (dictInsert_forall P attrs k (.bool true) hattrs
            (hkw2 (k, v) (List.mem_cons_self _ _) hks)) h
      · rw [if_neg hv] at h
        exact ih _ _ (fun p hp kr' h' => hkw p (List.mem_cons_of_mem _ hp) kr' h')
          (fun p hp h' => hkw2 p (List.mem_cons_of_mem _ hp) h')
          (dictInsert_forall P attrs k (.str (stripQuotes v)) hattrs
            (hkw2 (k, v) (List.mem_cons_self _ _) hks)) h

theorem processExprAttrsGo_keys (ext : Externals) (P : String → Prop)
    (lns localCtx : List (String × PyVal)) (names : List String) :
    ∀ (attrs out : List (String × PyVal)),
    (∀ p ∈ attrs, P p.1) →
    (∀ n : String, P (lstripColons n)) →
    processExprAttrsGo ext lns localCtx names attrs = .ok out →
    ∀ p ∈ out, P p.1 := by
  induction names with
  | nil =>
    intro attrs out hattrs _ h
    unfold processExprAttrsGo at h
    obtain rfl := Except.ok.inj h
    exact hattrs
  | cons n rest ih =>
    intro attrs out hattrs hn h
    unfold processExprAttrsGo at h
    cases hl : dictLookup lns n with
    | none => simp [hl] at h
    | some mv =>
      simp only [hl] at h
      cases mv with
      | str raw =>
        cases hpd : processDynamicAttribute ext raw localCtx with
        | error e => simp [hpd] at h
        | ok ev =>
          simp only [hpd] at h
          exact ih _ _ (dictInsert_forall P attrs (lstripColons n) ev hattrs (hn n)) hn h
      | int m => simp at h
      | bool b => simp at h
      | none => simp at h
      | list xs => simp at h
      | dict d => simp at h
      | exc m => simp at h

theorem processExprAttrs_keys (ext : Externals) (P : String → Prop)
    (lns localCtx attrs out : List (String × PyVal))
    (hattrs : ∀ p ∈ attrs, P p.1)
    (hn : ∀ n : String, P (lstripColons n))
    (h : processExprAttrs ext lns localCtx attrs = .ok out) :
    ∀ p ∈ out, P p.1 := by
  unfold processExprAttrs at h
  cases hm : dictLookup lns "ctn_template_expression_attrs" with
  | none =>
    simp only [hm] at h
    obtain rfl := Except.ok.inj h
    exact hattrs
  | some marker =>
    simp only [hm] at h
    cases hi : iterAsStrings marker with
    | error e => simp [hi] at h
    | ok names =>
      simp only [hi] at h
      exact processExprAttrsGo_keys ext P lns localCtx names attrs out hattrs hn h

theorem normalizeAttrs_keys (attrs : List (String × PyVal)) :
    ∀ p ∈ normalizeAttrs attrs, '-' ∉ p.1.data := by
  have hgen : ∀ (l acc : List (String × PyVal)),
      (∀ p ∈ acc, '-' ∉ p.1.data) →
      ∀ p ∈ l.foldl (fun acc p => dictInsert acc (charReplace '-' '_' p.1) p.2) acc,
        '-' ∉ p.1.data := by
    intro l
    induction l with
    | nil => intro acc hacc; simpa using hacc
    | cons q rest ih =>
      intro acc hacc
      exact ih _ (dictInsert_forall (fun s => '-' ∉ s.data) acc _ q.2 hacc
        (charReplace_no_dash q.1))
  exact hgen attrs [] (by simp)

/-- C8 counterexample: a declared key `::x` keeps a `:` marker in the
final attribute mapping, because `_build_attrs` strips exactly one
leading colon. -/
theorem c8_counterexample :
    (render modelExt
      { bodyRender := fun _ => "", component_path := "p", component_key := "k",
        kwargs := [("::x", "1")] } ⟨[], []⟩).map (fun r => r.attrsDict.map Prod.fst) =
      .ok [":x"] ∧
    startsWithColon ":x" = true :=
  ⟨rfl, rfl⟩

/-- C8 (amended): provided no declared attribute key begins with a
double colon, the final attribute mapping of a successful render
contains no key that still carries the `:` dynamic-marker prefix
(declared dynamic keys lose exactly one leading colon and slot
expression-attribute keys lose all of them), and every key exposed as an
individually addressable context variable is underscore-normalized. -/
theorem c8_amended (ext : Externals) (node : CottonComponentNode) (ctx : Ctx)
    (res : RenderResult) (h : render ext node ctx = .ok res)
    (hk : ∀ p ∈ node.kwargs,
      ¬(p.1.data.head? = some ':' ∧ p.1.data.tail.head? = some ':')) :
    (∀ p ∈ res.attrsDict, startsWithColon p.1 = false) ∧
    (∀ p ∈ normalizeAttrs res.attrsDict, '-' ∉ p.1.data) := by
  obtain ⟨a0, a1, tpath, hb, hpr, hg, hres⟩ := render_ok_elim h
  have ha1 : res.attrsDict = a1 := by rw [hres]
  have h0 : ∀ p ∈ a0, startsWithColon p.1 = false :=
    buildAttrs_keys ext (fun s => startsWithColon s = false) node.kwargs ctx.vars [] a0
      (fun p hp kr hkr => by
        show decide (kr.data.head? = some ':') = false
        rw [keySplit_some_data hkr]
        exact decide_eq_false (fun hcon => hk p hp ⟨keySplit_some_head hkr, hcon⟩))
      (fun p _ hn => startsWithColon_of_keySplit_none _ hn)
      (by simp) hb
  have h1 : ∀ p ∈ a1, startsWithColon p.1 = false :=
    processExprAttrs_keys ext (fun s => startsWithColon s = false) _ _ a0 a1 h0
      (fun n => startsWithColon_lstrip n) hpr
  constructor
  · intro p hp
    exact h1 p (ha1 ▸ hp)
  · intro p hp
    exact normalizeAttrs_keys res.attrsDict p hp

/-- Witness for C8 (amended) at a concrete render. -/
theorem c8_witness :
    render modelExt c8Node ⟨[], []⟩ = .ok c8Res ∧
    (∀ p ∈ c8Res.attrsDict, startsWithColon p.1 = false) ∧
    (∀ p ∈ normalizeAttrs c8Res.attrsDict, '-' ∉ p.1.data) := by
  have h := c8_amended modelExt c8Node ⟨[], []⟩ c8Res rfl (by decide)
  exact ⟨rfl, h.1, h.2⟩

/-! Lemmas about the quote-aware tokenizer and the attrs-string
round-trip. -/

theorem ensureQuoted_eq (v : PyVal) (hv : '"' ∉ (pyStr v).data) :
    ensureQuoted v = "\"" ++ pyStr v ++ "\"" := by
  unfold ensureQuoted
  rw [if_neg ?_]
  intro hcon
  cases hd : (pyStr v).data with
  | nil => rw [hd] at hcon; exact absurd hcon.1 (by simp)
  | cons c l =>
    rw [hd] at hcon
    have hc : c = '"' := by simpa using hcon.1
    exact hv (hd ▸ (hc ▸ List.mem_cons_self c l))

theorem smartSplitGo_cons_other (x : Char) (cs cur : List Char) (inQ : Bool)
    (hxq : x ≠ '"') (hmix : ¬(x = ' ' ∧ inQ = false)) :
    smartSplitGo (x :: cs) inQ cur = smartSplitGo cs inQ (x :: cur) := by
  simp only [smartSplitGo]
  rw [if_neg hxq, if_neg hmix]

theorem smartSplitGo_cons_quote (cs cur : List Char) (inQ : Bool) :
    smartSplitGo ('"' :: cs) inQ cur = smartSplitGo cs (!inQ) ('"' :: cur) := by
  simp [smartSplitGo]

theorem smartSplitGo_cons_space (cs cur : List Char) (hcur : cur ≠ []) :
    smartSplitGo (' ' :: cs) false cur =
      String.mk cur.reverse :: smartSplitGo cs false [] := by
  simp [smartSplitGo, hcur]

theorem smartSplitGo_nil_cons (cur : List Char) (hcur : cur ≠ []) :
    smartSplitGo [] false cur = [String.mk cur.reverse] := by
  simp [smartSplitGo, hcur]

theorem smartSplitGo_plain (xs : List Char) (hq : ∀ c ∈ xs, c ≠ '"')
    (hs : ∀ c ∈ xs, c ≠ ' ') :
    ∀ cs cur, smartSplitGo (xs ++ cs) false cur = smartSplitGo cs false (xs.reverse ++ cur) := by
  induction xs with
  | nil => intro cs cur; simp
  | cons x xs ih =>
    intro cs cur
    have hxq : x ≠ '"' := hq x (List.mem_cons_self _ _)
    have hxs : x ≠ ' ' := hs x (List.mem_cons_self _ _)
    rw [List.cons_append,
      smartSplitGo_cons_other x (xs ++ cs) cur false hxq (fun hcon => hxs hcon.1),
      ih (fun c hc => hq c (List.mem_cons_of_mem _ hc))
        (fun c hc => hs c (List.mem_cons_of_mem _ hc)) cs (x :: cur)]
    simp [List.append_assoc]

theorem smartSplitGo_quoted (xs : List Char) (hq : ∀ c ∈ xs, c ≠ '"') :
    ∀ cs cur, smartSplitGo (xs ++ cs) true cur = smartSplitGo cs true (xs.reverse ++ cur) := by
  induction xs with
  | nil => intro cs cur; simp
  | cons x xs ih =>
    intro cs cur
    have hxq : x ≠ '"' := hq x (List.mem_cons_self _ _)
    rw [List.cons_append,
      smartSplitGo_cons_other x (xs ++ cs) cur true hxq
        (fun hcon => absurd hcon.2 (by decide)),
      ih (fun c hc => hq c (List.mem_cons_of_mem _ hc)) cs (x :: cur)]
    simp [List.append_assoc]

theorem smartSplitGo_token (kd wd : List Char)
    (hkq : ∀ c ∈ kd, c ≠ '"') (hks : ∀ c ∈ kd, c ≠ ' ') (hwq : ∀ c ∈ wd, c ≠ '"') :
    ∀ cs cur, smartSplitGo (kd ++ ('=' :: '"' :: (wd ++ ('"' :: cs)))) false cur =
      smartSplitGo cs false
        ('"' :: (wd.reverse ++ ('"' :: '=' :: (kd.reverse ++ cur)))) := by
  intro cs cur
  rw [smartSplitGo_plain kd hkq hks,
    smartSplitGo_cons_other '=' _ _ false (by decide) (fun hcon => absurd hcon.1 (by decide)),
    smartSplitGo_cons_quote]
  rw [show (!false) = true from rfl]
  rw [smartSplitGo_quoted wd hwq, smartSplitGo_cons_quote]
  rw [show (!true) = false from rfl]

theorem smartSplit_attrsString (attrs : List (String × PyVal))
    (h : ∀ p ∈ attrs, (' ' ∉ p.1.data ∧ '"' ∉ p.1.data) ∧ '"' ∉ (pyStr p.2).data) :
    smartSplit (attrsString attrs) =
      attrs.map (fun p => p.1 ++ "=" ++ ensureQuoted p.2) := by
  unfold smartSplit
  induction attrs with
  | nil => rfl
  | cons q rest ih =>
    obtain ⟨k, v⟩ := q
    have hq := h (k, v) (List.mem_cons_self _ _)
    have hkq : ∀ c ∈ k.data, c ≠ '"' := fun c hc he => hq.1.2 (he ▸ hc)
    have hksp : ∀ c ∈ k.data, c ≠ ' ' := fun c hc he => hq.1.1 (he ▸ hc)
    have hwq : ∀ c ∈ (pyStr v).data, c ≠ '"' := fun c hc he => hq.2 (he ▸ hc)
    have hdata : (k ++ "=" ++ ensureQuoted v).data =
        k.data ++ ('=' :: '"' :: ((pyStr v).data ++ ('"' :: []))) := by
      rw [ensureQuoted_eq v hq.2]
      simp [String.data_append, List.append_assoc,
        show ("=" : String).data = ['='] from rfl,
        show ("\x22" : String).data = ['"'] from rfl]
    have hrev : ('"' :: ((pyStr v).data.reverse ++
        ('"' :: '=' :: (k.data.reverse ++ ([] : List Char))))).reverse =
        k.data ++ ('=' :: '"' :: ((pyStr v).data ++ ('"' :: []))) := by
      simp
    cases rest with
    | nil =>
      show smartSplitGo (k ++ "=" ++ ensureQuoted v).data false [] = _
      rw [hdata, smartSplitGo_token k.data (pyStr v).data hkq hksp hwq,
        smartSplitGo_nil_cons _ (by simp), hrev, ← hdata]
      rfl
    | cons q2 rest2 =>
      have hstep : (attrsString ((k, v) :: q2 :: rest2)).data =
          k.data ++ ('=' :: '"' :: ((pyStr v).data ++
            ('"' :: (' ' :: (attrsString (q2 :: rest2)).data)))) := by
        show ((k ++ "=" ++ ensureQuoted v) ++ " " ++ attrsString (q2 :: rest2)).data = _
        rw [String.data_append, String.data_append, hdata]
        simp [List.append_assoc, show (" " : String).data = [' '] from rfl]
      rw [hstep, smartSplitGo_token k.data (pyStr v).data hkq hksp hwq,
        smartSplitGo_cons_space _ _ (by simp), hrev, ← hdata,
        ih (fun p hp => h p (List.mem_cons_of_mem _ hp))]
      rfl

theorem reparse_token_key (k : String) (v : PyVal)
    (hk : '=' ∉ k.data) (hvq : '"' ∉ (pyStr v).data) (hve : '=' ∉ (pyStr v).data) :
    (parseKwargToken (k ++ "=" ++ ensureQuoted v)).1 = k := by
  have hq : '=' ∉ (ensureQuoted v).data := by
    rw [ensureQuoted_eq v hvq]
    intro hmem
    rw [String.data_append, String.data_append] at hmem
    rcases List.mem_append.mp hmem with hm | hm
    · rcases List.mem_append.mp hm with hm' | hm'
      · exact absurd hm' (by decide)
      · exact hve hm'
    · exact absurd hm (by decide)
  rw [parseKwargToken_split k (ensureQuoted v) hk hq]

/-- C9 counterexample: a value containing `=` breaks the key round-trip,
because the re-parse splits the serialized token at every `=` and the
resulting three-way split collapses the whole token into a key. -/
theorem c9_counterexample :
    reparseKeys (attrsString [("x", PyVal.str "a=b")]) = ["x=\"a=b\""] ∧
    reparseKeys (attrsString [("x", PyVal.str "a=b")]) ≠
      ([("x", PyVal.str "a=b")] : List (String × PyVal)).map Prod.fst :=
  ⟨rfl, by decide⟩

/-- C9 (amended): serializing the attribute mapping and re-parsing the
result recovers exactly the original keys, provided each key contains no
`=`, space or double-quote character and each value's string form
contains no `=` or double-quote character (double-quoted values may
contain spaces). -/
theorem c9_amended (attrs : List (String × PyVal))
    (h : ∀ p ∈ attrs, ('=' ∉ p.1.data ∧ ' ' ∉ p.1.data ∧ '"' ∉ p.1.data) ∧
      ('=' ∉ (pyStr p.2).data ∧ '"' ∉ (pyStr p.2).data)) :
    reparseKeys (attrsString attrs) = attrs.map Prod.fst := by
  unfold reparseKeys
  rw [smartSplit_attrsString attrs
    (fun p hp => ⟨⟨(h p hp).1.2.1, (h p hp).1.2.2⟩, (h p hp).2.2⟩)]
  rw [List.map_map]
  apply List.map_congr_left
  intro p hp
  exact reparse_token_key p.1 p.2 (h p hp).1.1 (h p hp).2.2 (h p hp).2.1

/-- Witness for C9 (amended): a round-trip over a mapping with a
space-containing string value and an integer value. -/
theorem c9_witness :
    (∀ p ∈ ([("x", PyVal.str "a b"), ("y", PyVal.int 3)] : List (String × PyVal)),
      ('=' ∉ p.1.data ∧ ' ' ∉ p.1.data ∧ '"' ∉ p.1.data) ∧
      ('=' ∉ (pyStr p.2).data ∧ '"' ∉ (pyStr p.2).data)) ∧
    reparseKeys (attrsString [("x", PyVal.str "a b"), ("y", PyVal.int 3)]) =
      ["x", "y"] := by
  have hcond : ∀ p ∈ ([("x", PyVal.str "a b"), ("y", PyVal.int 3)] :
      List (String × PyVal)),
      ('=' ∉ p.1.data ∧ ' ' ∉ p.1.data ∧ '"' ∉ p.1.data) ∧
      ('=' ∉ (pyStr p.2).data ∧ '"' ∉ (pyStr p.2).data) := by decide
  exact ⟨hcond, c9_amended _ hcond⟩
